import Mathlib

/-!
Verification of the RFID attendance firmware core (`src/sih_rfid.ino`)
against its natural-language specification.

The firmware is a single-threaded Arduino sketch: `setup` joins the WiFi
network (blocking), then `loop` polls the RFID reader, formats the tag UID,
POSTs it to a configured endpoint and signals the outcome on two LEDs.
We embed the observable behaviour shallowly: LED writes and delays become
event lists, one `loop` iteration becomes a pure function from the inputs
the hardware supplies (card presence, UID bytes, WiFi status, HTTP result)
to the list of performed actions and the outcome classification.
-/

namespace SihRfid

/-! ## Identifier formatting (src/sih_rfid.ino lines 69-73)

The sketch builds the UID with `uid += String(mfrc522.uid.uidByte[i], HEX)`
followed by `uid.toLowerCase()`.  Arduino `String(value, HEX)` renders an
unsigned value in lowercase hexadecimal WITHOUT leading-zero padding
(value 0 renders as "0"); for a byte (< 256) that is one hex digit when the
byte is below 0x10 and two hex digits otherwise. -/

/-- Hex digit character for a value below 16: `'0'..'9'` then `'a'..'f'`
(Arduino's `utoa` conversion table, lowercase). -/
def hexDigit (n : Nat) : Char :=
  if n < 10 then Char.ofNat (48 + n) else Char.ofNat (87 + n)

/-- Characters produced by Arduino `String(b, HEX)` for a byte `b`:
no leading-zero padding, so one digit below 0x10, else two. -/
def byteToHexChars (b : Nat) : List Char :=
  if b < 16 then [hexDigit b] else [hexDigit (b / 16), hexDigit (b % 16)]

/-- ASCII lowercasing of one character, as `String::toLowerCase` does
per character. -/
def charToLower (c : Char) : Char :=
  if 65 ≤ c.toNat ∧ c.toNat ≤ 90 then Char.ofNat (c.toNat + 32) else c

/-- The `uid` accumulation loop (lines 69-72): start from the empty string
and append the hex rendering of each byte in input order. -/
def uidChars (bytes : List Nat) : List Char :=
  bytes.foldl (fun acc b => acc ++ byteToHexChars b) []

/-- The complete UID string construction (lines 69-73): the accumulation
loop followed by `uid.toLowerCase()`. -/
def formatUid (bytes : List Nat) : String :=
  String.mk ((uidChars bytes).map charToLower)

/-- Number of characters `String(b, HEX)` contributes for byte `b`. -/
def hexLen (b : Nat) : Nat :=
  if b < 16 then 1 else 2

/-- Is `c` a lowercase hexadecimal digit? -/
def isHexLowerChar (c : Char) : Bool :=
  ("0123456789abcdef".data).contains c

/-! ### Supporting lemmas for the formatter -/

theorem uidChars_eq_join (bytes : List Nat) :
    uidChars bytes = (bytes.map byteToHexChars).flatten := by
  suffices h : ∀ acc : List Char,
      bytes.foldl (fun acc b => acc ++ byteToHexChars b) acc
        = acc ++ (bytes.map byteToHexChars).flatten by
    simpa using h []
  induction bytes with
  | nil => intro acc; simp [List.flatten]
  | cons b rest ih =>
      intro acc
      simp only [List.foldl_cons, List.map_cons, List.flatten_cons, ih, List.append_assoc]

theorem byteToHexChars_length (b : Nat) :
    (byteToHexChars b).length = hexLen b := by
  unfold byteToHexChars hexLen
  split <;> rfl

theorem hexDigit_isHexLower {n : Nat} (h : n < 16) :
    isHexLowerChar (hexDigit n) = true := by
  interval_cases n <;> decide

theorem charToLower_hexDigit {n : Nat} (h : n < 16) :
    charToLower (hexDigit n) = hexDigit n := by
  interval_cases n <;> decide

theorem byteToHexChars_mem {b : Nat} (hb : b < 256) {c : Char}
    (hc : c ∈ byteToHexChars b) :
    isHexLowerChar c = true ∧ charToLower c = c := by
  unfold byteToHexChars at hc
  by_cases h16 : b < 16
  · simp only [h16, if_true, List.mem_singleton] at hc
    subst hc
    exact ⟨hexDigit_isHexLower h16, charToLower_hexDigit h16⟩
  · simp only [h16, if_false, List.mem_cons, List.mem_singleton,
      List.not_mem_nil, or_false] at hc
    have hdiv : b / 16 < 16 := Nat.div_lt_of_lt_mul (by omega)
    have hmod : b % 16 < 16 := Nat.mod_lt _ (by omega)
    rcases hc with hc | hc <;> subst hc
    · exact ⟨hexDigit_isHexLower hdiv, charToLower_hexDigit hdiv⟩
    · exact ⟨hexDigit_isHexLower hmod, charToLower_hexDigit hmod⟩

/-! ## Indicator lights and low-level events (lines 10-11, 25-32)

`RED_LED` and `GREEN_LED` are the two indicator outputs.  `digitalWrite`
and `delay` are the primitive effects; we record them as events. -/

/-- The two indicator lights. -/
inductive Led where
  | red
  | green
deriving DecidableEq

/-- The state of the two light pins. -/
structure LedState where
  red : Bool
  green : Bool
deriving DecidableEq

/-- A primitive hardware effect: `digitalWrite(pin, level)` or `delay(ms)`. -/
inductive Event where
  | setLed (led : Led) (high : Bool)
  | wait (ms : Nat)
deriving DecidableEq

/-- `blinkLED` (lines 25-32): `times` iterations of
HIGH, delay, LOW, delay. -/
def blinkLED (pin : Led) : Nat → Nat → List Event
  | 0, _ => []
  | Nat.succ n, delayMs =>
      Event.setLed pin true :: Event.wait delayMs ::
      Event.setLed pin false :: Event.wait delayMs :: blinkLED pin n delayMs

/-- Effect of `digitalWrite` on the pin state. -/
def setLed (s : LedState) (l : Led) (b : Bool) : LedState :=
  match l with
  | Led.red => LedState.mk b s.green
  | Led.green => LedState.mk s.red b

/-- Read one pin of the pin state. -/
def LedState.get (s : LedState) : Led → Bool
  | Led.red => s.red
  | Led.green => s.green

/-- Run a list of events over the pin state. -/
def applyEvents (s : LedState) : List Event → LedState
  | [] => s
  | Event.setLed l b :: rest => applyEvents (setLed s l b) rest
  | Event.wait _ :: rest => applyEvents s rest

/-- How many `digitalWrite(l, b)` events a list contains. -/
def countSetEvents (l : Led) (b : Bool) : List Event → Nat
  | [] => 0
  | Event.setLed l2 b2 :: rest =>
      (if l2 = l ∧ b2 = b then 1 else 0) + countSetEvents l b rest
  | Event.wait _ :: rest => countSetEvents l b rest

/-- The sequence of `delay` durations in a list of events. -/
def waitDurations : List Event → List Nat
  | [] => []
  | Event.setLed _ _ :: rest => waitDurations rest
  | Event.wait d :: rest => d :: waitDurations rest

/-! ## Actions of one `loop` iteration (lines 62-122)

One level above events: a completed `blinkLED` call is one action, as are
the `HTTPClient` calls and the final `delay(2000)`.  Serial prints are
diagnostic only and are not modelled. -/

/-- An observable action of the control loop. -/
inductive Action where
  | blink (led : Led) (times delayMs : Nat)
  | ledWrite (led : Led) (high : Bool)
  | httpBegin (url : String)
  | httpAddHeader (nm value : String)
  | httpPost (body : String)
  | httpEnd
  | wait (ms : Nat)
deriving DecidableEq

/-- Low-level events performed by one action. -/
def actionEvents : Action → List Event
  | Action.blink l t d => blinkLED l t d
  | Action.ledWrite l b => [Event.setLed l b]
  | Action.wait ms => [Event.wait ms]
  | _ => []

/-- Run a list of actions over the pin state. -/
def applyActions (s : LedState) (acts : List Action) : LedState :=
  acts.foldl (fun st a => applyEvents st (actionEvents a)) s

/-- Does this action touch the HTTP client (construct or attempt a
request)? -/
def isHttpAction : Action → Bool
  | Action.httpBegin _ => true
  | Action.httpAddHeader _ _ => true
  | Action.httpPost _ => true
  | Action.httpEnd => true
  | _ => false

/-- Is this action an executed blink pattern? -/
def isBlinkAction : Action → Bool
  | Action.blink _ _ _ => true
  | _ => false

/-- Number of POST requests issued in a list of actions. -/
def countPosts : List Action → Nat
  | [] => 0
  | Action.httpPost _ :: rest => 1 + countPosts rest
  | _ :: rest => countPosts rest

/-! ## One iteration of `loop` (lines 62-122) -/

/-- The configured endpoint URL (line 21). -/
def serverURL : String := "http://192.168.29.130:5000/api/rfid_scan"

/-- The JSON body built at line 86:
`"\x7b\"uid\":\"" + uid + "\"\x7d"` — plain concatenation, no escaping. -/
def buildJson (uid : String) : String :=
  "\x7b\"uid\":\"" ++ uid ++ "\"\x7d"

/-- The environment one `loop` iteration reads from the hardware:
card presence and serial-read success (line 64), the raw UID bytes
(lines 70-71), the WiFi status check (line 81), and the value returned by
`http.POST` (line 94) — a status code when positive, a transport error
code (negative) otherwise — together with the response body. -/
structure ScanInput where
  newCardPresent : Bool
  readCardOk : Bool
  uidBytes : List Nat
  wifiConnected : Bool
  postResult : Int
  responseBody : String
deriving DecidableEq

/-- Classification of one scan's network exchange, as in the spec's
`ReportOutcome`.  `transportFailed` carries the raw negative
`HTTPClient` error code (its `errorToString` rendering is library
diagnostics and is not modelled). -/
inductive ReportOutcome where
  | success
  | serverRejected (status : Int) (body : String)
  | transportFailed (errorCode : Int)
  | networkUnavailable
deriving DecidableEq

/-- One iteration of `loop` (lines 62-122): the list of actions performed
and the outcome classification (`none` when no tag was handled).
Mirrors the source: early return unless a new card is present and its
serial was read (line 64); build the UID (69-73); red blink 1x150 (79);
if WiFi connected (81): begin+header (83-84), green blink 2x100 (92),
POST (94), then 200 → green 3x200, other positive status → red 3x200,
non-positive → red 5x100, then `http.end()` (115); else red 2x400 (118);
finally `delay(2000)` (121). -/
def loopIteration (inp : ScanInput) : List Action × Option ReportOutcome :=
  if !inp.newCardPresent || !inp.readCardOk then
    ([], none)
  else
    let uid := formatUid inp.uidBytes
    if inp.wifiConnected then
      let json := buildJson uid
      let pre := [Action.blink Led.red 1 150,
        Action.httpBegin serverURL,
        Action.httpAddHeader "Content-Type" "application/json",
        Action.blink Led.green 2 100,
        Action.httpPost json]
      if inp.postResult > 0 then
        if inp.postResult = 200 then
          (pre ++ [Action.blink Led.green 3 200, Action.httpEnd,
            Action.wait 2000], some ReportOutcome.success)
        else
          (pre ++ [Action.blink Led.red 3 200, Action.httpEnd,
            Action.wait 2000],
           some (ReportOutcome.serverRejected inp.postResult inp.responseBody))
      else
        (pre ++ [Action.blink Led.red 5 100, Action.httpEnd,
          Action.wait 2000],
         some (ReportOutcome.transportFailed inp.postResult))
    else
      ([Action.blink Led.red 1 150, Action.blink Led.red 2 400,
        Action.wait 2000],
       some ReportOutcome.networkUnavailable)

/-! ## `setup` and the device state machine (lines 34-60)

The sketch has no explicit state variable; the spec's `DeviceState` is the
abstraction of control position: `setup` begins (Booting), `WiFi.begin`
(line 47) starts the join (ConnectingNetwork), each failed `WiFi.status`
poll of the while loop (lines 48-52) stays there, and falling out of the
loop (lines 54-59) is Ready, after which only `loop` runs.  `loop`
(lines 62-122) contains no call that alters the join state — `WiFi.status`
at line 81 is a read-only per-scan query and there is no reconnect logic —
so a loop iteration leaves the device state unchanged. -/

/-- The spec's device state. -/
inductive DeviceState where
  | booting
  | connectingNetwork
  | ready
deriving DecidableEq

/-- State trace of `setup` when the join-status poll fails `failedPolls`
times before succeeding: Booting, then ConnectingNetwork for the
`WiFi.begin` call and each failed poll, then Ready. -/
def setupTrace (failedPolls : Nat) : List DeviceState :=
  DeviceState.booting ::
    List.replicate (failedPolls + 1) DeviceState.connectingNetwork ++
    [DeviceState.ready]

/-- Device-state effect of one `loop` iteration: none — the loop body never
calls `WiFi.begin` nor re-enters the connecting code. -/
def loopStep (s : DeviceState) (_inp : ScanInput) : DeviceState := s

/-- States after each of a sequence of `loop` iterations. -/
def runLoop (s : DeviceState) : List ScanInput → List DeviceState
  | [] => []
  | inp :: rest =>
      loopStep s inp :: runLoop (loopStep s inp) rest

/-- The full device-state trace of one power cycle: `setup` (with
`failedPolls` failed join polls), then the given `loop` iterations. -/
def deviceTrace (failedPolls : Nat) (scans : List ScanInput) :
    List DeviceState :=
  setupTrace failedPolls ++ runLoop DeviceState.ready scans

/-- Number of transitions into Ready in a state trace. -/
def readyEntries : List DeviceState → Nat
  | s1 :: s2 :: rest =>
      (if s1 ≠ DeviceState.ready ∧ s2 = DeviceState.ready then 1 else 0) +
        readyEntries (s2 :: rest)
  | _ => 0

/-- Does the trace never leave Ready once entered (checked on adjacent
pairs)? -/
def noReadyExit : List DeviceState → Bool
  | s1 :: s2 :: rest =>
      (!(s1 = DeviceState.ready) || (s2 = DeviceState.ready)) &&
        noReadyExit (s2 :: rest)
  | _ => true

/-! ## LED actions of `setup`, and the iteration with carried pin state -/

/-- Pin state at power-on: both outputs low after `pinMode(..., OUTPUT)`
(lines 37-38). -/
def initialLedState : LedState := LedState.mk false false

/-- LED actions of `setup`: during each failed join poll, red then green
blink once at 300 ms (lines 49-50); on success the green pin is written
HIGH once (line 59) and never touched again by `setup`. -/
def setupActions (failedPolls : Nat) : List Action :=
  (List.replicate failedPolls
      [Action.blink Led.red 1 300, Action.blink Led.green 1 300]).flatten ++
    [Action.ledWrite Led.green true]

/-- One `loop` iteration together with the only mutable state the firmware
carries from one iteration to the next: the LED pin levels.  The actions
and the outcome are produced by `loopIteration` from the iteration's
inputs alone. -/
def deviceIteration (s : LedState) (inp : ScanInput) :
    LedState × (List Action × Option ReportOutcome) :=
  (applyActions s (loopIteration inp).1, loopIteration inp)

/-! ## Claim theorems -/

/-- C1 (counterexample): the UID construction does NOT produce two
hexadecimal characters per byte.  On the claim's own example bytes
`[0x04, 0xA1, 0xB2]` it yields `"4a1b2"` — five characters, not six, and
not the claimed `"04a1b2"` — because `String(b, HEX)` renders a byte below
0x10 with a single digit. -/
theorem formatUid_two_digit_cex :
    formatUid [0x04, 0xA1, 0xB2] = "4a1b2" ∧
    formatUid [0x04, 0xA1, 0xB2] ≠ "04a1b2" ∧
    (formatUid [0x04, 0xA1, 0xB2]).data.length ≠ 2 * 3 := by
  decide

/-- C1 (amended): for every sequence of raw identifier bytes, the UID
construction is deterministic and yields lowercase hexadecimal characters
concatenated in input byte order with no separators, where each byte
contributes two characters when it is at least 0x10 and one character
(no leading zero) when it is below 0x10; the example bytes
`[0x04, 0xA1, 0xB2]` yield `"4a1b2"`. -/
theorem formatUid_unpadded_spec (bytes : List Nat)
    (h : ∀ b ∈ bytes, b < 256) :
    (formatUid bytes).data.length = (bytes.map hexLen).sum ∧
    (∀ c ∈ (formatUid bytes).data, isHexLowerChar c = true) ∧
    (∀ bytes2 : List Nat, bytes2 = bytes → formatUid bytes2 = formatUid bytes) ∧
    formatUid [0x04, 0xA1, 0xB2] = "4a1b2" := by
  have hdata : (formatUid bytes).data = (uidChars bytes).map charToLower := rfl
  refine ⟨?_, ?_, fun b2 hb2 => by rw [hb2], by decide⟩
  · rw [hdata, List.length_map, uidChars_eq_join, List.length_flatten,
      List.map_map]
    exact congrArg List.sum
      (List.map_congr_left fun b _ => byteToHexChars_length b)
  · intro c hc
    rw [hdata] at hc
    rcases List.mem_map.mp hc with ⟨c2, hc2, rfl⟩
    rw [uidChars_eq_join] at hc2
    rcases List.mem_flatten.mp hc2 with ⟨l, hl, hcl⟩
    rcases List.mem_map.mp hl with ⟨b, hb, rfl⟩
    obtain ⟨h1, h2⟩ := byteToHexChars_mem (h b hb) hcl
    rw [h2]
    exact h1

/-- C1 (witness): the amended statement instantiated at the example input. -/
theorem formatUid_unpadded_spec_witness :
    (∀ b ∈ [0x04, 0xA1, 0xB2], b < 256) ∧
    (formatUid [0x04, 0xA1, 0xB2]).data.length
      = ([0x04, 0xA1, 0xB2].map hexLen).sum :=
  ⟨by decide, (formatUid_unpadded_spec [0x04, 0xA1, 0xB2] (by decide)).1⟩

/-- C10: the UID construction is not injective — the distinct byte
sequences `[0x01, 0x23]` and `[0x12, 0x03]` both format to `"123"`,
because a byte below 0x10 is rendered without a leading zero. -/
theorem formatUid_not_injective :
    [0x01, 0x23] ≠ [0x12, 0x03] ∧
    formatUid [0x01, 0x23] = formatUid [0x12, 0x03] ∧
    formatUid [0x01, 0x23] = "123" := by
  decide

/-! ### Supporting lemmas for `blinkLED` -/

theorem setLed_get_same (s : LedState) (l : Led) (b : Bool) :
    (setLed s l b).get l = b := by
  cases l <;> rfl

theorem countSetEvents_blinkLED (pin : Led) (b : Bool) (times d : Nat) :
    countSetEvents pin b (blinkLED pin times d) = times := by
  induction times with
  | zero => rfl
  | succ n ih => cases b <;> simp [blinkLED, countSetEvents, ih, Nat.add_comm]

theorem waitDurations_blinkLED (pin : Led) (times d : Nat) :
    waitDurations (blinkLED pin times d) = List.replicate (2 * times) d := by
  induction times with
  | zero => rfl
  | succ n ih =>
      have h2 : 2 * (n + 1) = 2 * n + 1 + 1 := by ring
      rw [h2, List.replicate_succ, List.replicate_succ]
      simp [blinkLED, waitDurations, ih]

theorem applyEvents_blinkLED_off (pin : Led) (d : Nat) :
    ∀ (times : Nat) (s : LedState), 0 < times →
      (applyEvents s (blinkLED pin times d)).get pin = false := by
  intro times
  induction times with
  | zero => intro s h; omega
  | succ n ih =>
      intro s _
      show (applyEvents (setLed (setLed s pin true) pin false)
        (blinkLED pin n d)).get pin = false
      cases n with
      | zero => exact setLed_get_same _ pin false
      | succ m => exact ih _ (Nat.succ_pos m)

/-- C8: for positive repetitions and duration, `blinkLED` writes the named
pin HIGH exactly `times` times and LOW exactly `times` times, every delay
between writes is `delayMs` (so `2 * times` delays of `delayMs` each, one
per phase), and from any starting pin state the named pin ends LOW
(off). -/
theorem blinkLED_spec (pin : Led) (times d : Nat) (s : LedState)
    (ht : 0 < times) (_hd : 0 < d) :
    countSetEvents pin true (blinkLED pin times d) = times ∧
    countSetEvents pin false (blinkLED pin times d) = times ∧
    waitDurations (blinkLED pin times d) = List.replicate (2 * times) d ∧
    (applyEvents s (blinkLED pin times d)).get pin = false :=
  ⟨countSetEvents_blinkLED pin true times d,
   countSetEvents_blinkLED pin false times d,
   waitDurations_blinkLED pin times d,
   applyEvents_blinkLED_off pin d times s ht⟩

/-- C8 (witness): the blink contract at the "accepted" pattern
(green, 3 repetitions, 200 ms), starting with both pins HIGH. -/
theorem blinkLED_spec_witness :
    0 < 3 ∧ 0 < 200 ∧
    countSetEvents Led.green true (blinkLED Led.green 3 200) = 3 ∧
    (applyEvents (LedState.mk true true)
      (blinkLED Led.green 3 200)).get Led.green = false :=
  ⟨by decide, by decide,
   (blinkLED_spec Led.green 3 200 (LedState.mk true true)
     (by decide) (by decide)).1,
   (blinkLED_spec Led.green 3 200 (LedState.mk true true)
     (by decide) (by decide)).2.2.2⟩

/-- C2 (code bug): the green "Ready" light is not persistent.  After
`setup` (here with 2 failed join polls) the green pin is HIGH, but handling
one scan (tag `[0x12, 0x34]`, WiFi connected, server replies 200) leaves
the green pin LOW — `blinkLED` ends every pattern with the pin LOW and
`loop` never rewrites the green pin HIGH — and subsequent idle polls
perform no action, so the light stays off while the device idles in Ready,
contradicting the source's own comment "Ready (connected to WiFi) → Green
solid ON". -/
theorem ready_green_not_persistent :
    (applyActions initialLedState (setupActions 2)).green = true ∧
    (applyActions (applyActions initialLedState (setupActions 2))
      (loopIteration (ScanInput.mk true true [0x12, 0x34] true 200 "")).1).green
        = false ∧
    (loopIteration (ScanInput.mk false true [] true 200 "")).1 = [] := by
  decide

/-! ### Supporting lemmas for the device-state trace -/

theorem runLoop_ready (scans : List ScanInput) :
    runLoop DeviceState.ready scans
      = List.replicate scans.length DeviceState.ready := by
  induction scans with
  | nil => rfl
  | cons i rest ih => simp [runLoop, loopStep, ih, List.replicate_succ]

theorem readyEntries_ready_replicate (m : Nat) :
    readyEntries (DeviceState.ready :: List.replicate m DeviceState.ready)
      = 0 := by
  induction m with
  | zero => rfl
  | succ k ih => simpa [List.replicate_succ, readyEntries] using ih

theorem noReadyExit_ready_replicate (m : Nat) :
    noReadyExit (DeviceState.ready :: List.replicate m DeviceState.ready)
      = true := by
  induction m with
  | zero => rfl
  | succ k ih => simpa [List.replicate_succ, noReadyExit] using ih

theorem readyEntries_conn_run (l : List DeviceState) :
    ∀ k, readyEntries (DeviceState.connectingNetwork ::
        (List.replicate k DeviceState.connectingNetwork ++
          DeviceState.ready :: l))
      = 1 + readyEntries (DeviceState.ready :: l) := by
  intro k
  induction k with
  | zero => simp [readyEntries]
  | succ k ih => simpa [List.replicate_succ, readyEntries] using ih

theorem noReadyExit_conn_run (l : List DeviceState) :
    ∀ k, noReadyExit (DeviceState.connectingNetwork ::
        (List.replicate k DeviceState.connectingNetwork ++
          DeviceState.ready :: l))
      = noReadyExit (DeviceState.ready :: l) := by
  intro k
  induction k with
  | zero => simp [noReadyExit]
  | succ k ih => simpa [List.replicate_succ, noReadyExit] using ih

/-- C3: in every power cycle (any number `n` of failed join polls, any
sequence of loop iterations), the device-state trace enters Ready exactly
once — when the network join succeeds — and never leaves it afterwards:
no loop iteration, whatever its connectivity or scan inputs, transitions
back to Booting or ConnectingNetwork. -/
theorem ready_entered_once_never_exited (n : Nat) (scans : List ScanInput) :
    readyEntries (deviceTrace n scans) = 1 ∧
    noReadyExit (deviceTrace n scans) = true := by
  unfold deviceTrace setupTrace
  rw [runLoop_ready, List.replicate_succ]
  have hshape :
      (DeviceState.booting ::
          (DeviceState.connectingNetwork ::
            List.replicate n DeviceState.connectingNetwork) ++
          [DeviceState.ready]) ++
        List.replicate scans.length DeviceState.ready
      = DeviceState.booting :: DeviceState.connectingNetwork ::
          (List.replicate n DeviceState.connectingNetwork ++
            DeviceState.ready ::
              List.replicate scans.length DeviceState.ready) := by
    simp
  rw [hshape]
  constructor
  · have h1 := readyEntries_conn_run
      (List.replicate scans.length DeviceState.ready) n
    have h2 := readyEntries_ready_replicate scans.length
    simp [readyEntries, h1, h2]
  · have h1 := noReadyExit_conn_run
      (List.replicate scans.length DeviceState.ready) n
    have h2 := noReadyExit_ready_replicate scans.length
    simp [noReadyExit, h1, h2]

/-- C9: scan handling carries no mutable state between iterations.  The
only state the firmware carries across `loop` iterations is the LED pin
levels, and the actions and outcome of an iteration are a function of that
iteration's inputs alone: re-running the same inputs immediately after a
previous iteration — or from any two different carried states — produces
the identical action sequence and outcome classification. -/
theorem scan_handling_stateless (s0 : LedState) (inp : ScanInput) :
    (deviceIteration s0 inp).2
      = (deviceIteration (deviceIteration s0 inp).1 inp).2 ∧
    ∀ s1 s2 : LedState,
      (deviceIteration s1 inp).2 = (deviceIteration s2 inp).2 :=
  ⟨rfl, fun _ _ => rfl⟩

/-- C4: when a tag is handled while WiFi is disconnected, the iteration
classifies the scan as `networkUnavailable`, performs no HTTP action at all
(no request is constructed or attempted), and executes the
"network unavailable" pattern: red, 2 repetitions, 400 ms. -/
theorem network_unavailable_no_request (inp : ScanInput)
    (h1 : inp.newCardPresent = true) (h2 : inp.readCardOk = true)
    (h3 : inp.wifiConnected = false) :
    (loopIteration inp).2 = some ReportOutcome.networkUnavailable ∧
    (∀ a ∈ (loopIteration inp).1, isHttpAction a = false) ∧
    Action.blink Led.red 2 400 ∈ (loopIteration inp).1 := by
  simp [loopIteration, h1, h2, h3, isHttpAction]

/-- C4 (witness): the disconnected-scan contract at a concrete input. -/
theorem network_unavailable_no_request_witness :
    (loopIteration (ScanInput.mk true true [0x12, 0x34] false 200 "")).2
      = some ReportOutcome.networkUnavailable :=
  (network_unavailable_no_request
    (ScanInput.mk true true [0x12, 0x34] false 200 "") rfl rfl rfl).1

/-- C5: outcome classification of a connected scan.  A positive `POST`
return value is a received status: exactly 200 classifies as `success`
with the green 3x200 ms pattern; any other received (positive) status
classifies as `serverRejected` (carrying status and body) with the red
3x200 ms pattern; a non-positive return value means the exchange did not
complete and classifies as `transportFailed` with the red 5x100 ms
pattern. -/
theorem outcome_classification (inp : ScanInput)
    (h1 : inp.newCardPresent = true) (h2 : inp.readCardOk = true)
    (h3 : inp.wifiConnected = true) :
    (inp.postResult = 200 →
      (loopIteration inp).2 = some ReportOutcome.success ∧
      Action.blink Led.green 3 200 ∈ (loopIteration inp).1) ∧
    (0 < inp.postResult → inp.postResult ≠ 200 →
      (loopIteration inp).2
        = some (ReportOutcome.serverRejected inp.postResult inp.responseBody) ∧
      Action.blink Led.red 3 200 ∈ (loopIteration inp).1) ∧
    (inp.postResult ≤ 0 →
      (loopIteration inp).2
        = some (ReportOutcome.transportFailed inp.postResult) ∧
      Action.blink Led.red 5 100 ∈ (loopIteration inp).1) := by
  refine ⟨fun hp => ?_, fun hp hne => ?_, fun hp => ?_⟩
  · simp [loopIteration, h1, h2, h3, hp]
  · simp [loopIteration, h1, h2, h3, hp, hne]
  · simp [loopIteration, h1, h2, h3, not_lt.mpr hp]

/-- C5 (witness): a connected scan whose exchange returns status 200 is
classified as `success`. -/
theorem outcome_classification_witness :
    (loopIteration (ScanInput.mk true true [0x12] true 200 "ok")).2
      = some ReportOutcome.success :=
  ((outcome_classification (ScanInput.mk true true [0x12] true 200 "ok")
    rfl rfl rfl).1 rfl).1

/-- C6: every connected scan issues exactly one POST, carrying the header
`Content-Type: application/json` and the literal body
`\x7b"uid":"<identifier>"\x7d` built by plain concatenation (no other
fields, no escaping); in particular identifier `"04a1b2"` gives exactly
the body `\x7b"uid":"04a1b2"\x7d`. -/
theorem report_body_json (inp : ScanInput)
    (h1 : inp.newCardPresent = true) (h2 : inp.readCardOk = true)
    (h3 : inp.wifiConnected = true) :
    buildJson "04a1b2" = "\x7b\"uid\":\"04a1b2\"\x7d" ∧
    countPosts (loopIteration inp).1 = 1 ∧
    Action.httpPost (buildJson (formatUid inp.uidBytes))
      ∈ (loopIteration inp).1 ∧
    Action.httpAddHeader "Content-Type" "application/json"
      ∈ (loopIteration inp).1 := by
  refine ⟨by decide, ?_, ?_, ?_⟩ <;>
    · simp only [loopIteration, h1, h2, h3]
      split_ifs <;> simp_all [countPosts]

/-- C6 (witness): the POST-body contract at a concrete input. -/
theorem report_body_json_witness :
    countPosts (loopIteration (ScanInput.mk true true [0x04] true 200 "")).1
      = 1 :=
  (report_body_json (ScanInput.mk true true [0x04] true 200 "")
    rfl rfl rfl).2.1

/-- C7: every handled tag — in every branch — ends its iteration with the
fixed 2000 ms quiescent delay as the last action; and when WiFi is
connected and the exchange returns 200, the blink patterns executed are
exactly [red 1x150 (tag detected), green 2x100 (transmitting),
green 3x200 (accepted)], in that order. -/
theorem success_scan_sequence (inp : ScanInput)
    (h1 : inp.newCardPresent = true) (h2 : inp.readCardOk = true) :
    (loopIteration inp).1.getLast? = some (Action.wait 2000) ∧
    (inp.wifiConnected = true → inp.postResult = 200 →
      (loopIteration inp).1.filter isBlinkAction
        = [Action.blink Led.red 1 150, Action.blink Led.green 2 100,
           Action.blink Led.green 3 200]) := by
  constructor
  · simp only [loopIteration, h1, h2]
    split_ifs <;> simp_all
  · intro h3 hp
    simp [loopIteration, h1, h2, h3, hp, isBlinkAction]

/-- C7 (witness): the success-scan sequence at a concrete input. -/
theorem success_scan_sequence_witness :
    (loopIteration (ScanInput.mk true true [0x12, 0x34] true 200 "")).1.filter
        isBlinkAction
      = [Action.blink Led.red 1 150, Action.blink Led.green 2 100,
         Action.blink Led.green 3 200] :=
  (success_scan_sequence (ScanInput.mk true true [0x12, 0x34] true 200 "")
    rfl rfl).2 rfl rfl

end SihRfid
